import Mathlib

set_option maxRecDepth 100000

/-!
# Verification of the Challenge-08 multi-agent travel planner

Shallow embedding of the handoff orchestrator implemented in
`Coach/Solutions/Challenge-08/python/multi_agent_travel_planner.py` (the
`TravelAgentOrchestrator` class) and of the corresponding helpers in
`Student/Resources/Challenge-08/python/travel_multi_agent_client.py`
(the `TravelMultiAgentClient` class).

Python strings are modelled as Lean `String`/`List Char`; the Python string
methods used by the source (`strip`, `upper`, `lower`, `title`, `split`,
`splitlines`, `startswith`, `join`, slicing) are reproduced on `List Char`
for the ASCII inputs the program deals in.  Mutable object state
(`self.conversation`, `self.trip_notes`, `self.current_agent_key`, ...) is
passed explicitly; each method becomes a function from the old state to the
new state.
-/

/-- ASCII whitespace recognised by Python's `str.strip()` / `str.split()`
(space, tab, newline, carriage return, vertical tab, form feed). -/
def isPySpace (c : Char) : Bool :=
  c = ' ' || c = '\t' || c = '\n' || c = '\x0d' || c = '\x0b' || c = '\x0c'

/-- Python `str.strip()` on a character list: drop leading and trailing
whitespace. -/
def pyStripL (l : List Char) : List Char :=
  ((l.dropWhile isPySpace).reverse.dropWhile isPySpace).reverse

/-- Python `str.strip()`. -/
def pyStrip (s : String) : String :=
  String.mk (pyStripL s.data)

/-- Python `str.upper()` (ASCII). -/
def pyUpperL (l : List Char) : List Char :=
  l.map Char.toUpper

/-- Python `str.lower()` (ASCII). -/
def pyLowerL (l : List Char) : List Char :=
  l.map Char.toLower

/-- Python `str.lower()` on strings. -/
def pyLower (s : String) : String :=
  String.mk (pyLowerL s.data)

/-- One step of Python `str.splitlines()`: the accumulator holds the current
line reversed; `\r\n`, `\r` and `\n` all terminate a line, and a trailing
line without a final newline is emitted only if the input did not end at a
line boundary (so `"a\n"` gives `["a"]` and `""` gives `[]`). -/
def splitlinesAux : List Char → List Char → List (List Char)
  | [], acc => if acc.isEmpty then [] else [acc.reverse]
  | '\x0d' :: '\n' :: rest, acc => acc.reverse :: splitlinesAux rest []
  | '\x0d' :: rest, acc => acc.reverse :: splitlinesAux rest []
  | '\n' :: rest, acc => acc.reverse :: splitlinesAux rest []
  | c :: rest, acc => splitlinesAux rest (c :: acc)

/-- Python `str.splitlines()`. -/
def pySplitlines (l : List Char) : List (List Char) :=
  splitlinesAux l []

/-- Python `line.split(":", maxsplit=1)[-1]`: everything after the first
colon; the whole line when it has no colon (a one-element split). -/
def splitColonLast (l : List Char) : List Char :=
  match l.dropWhile (· ≠ ':') with
  | [] => l
  | _ :: rest => rest

/-- The characters of the module-level constant `HANDOFF_PREFIX = "HANDOFF:"`. -/
def handoffMarkerChars : List Char :=
  "HANDOFF:".data

/-- The literal `mapping` dictionary built inside
`TravelAgentOrchestrator.parse_handoff`, read through `mapping.get(target)`:
each of the six role names maps to itself, anything else to `None`. -/
def roleMapping (target : String) : Option String :=
  if target = "coordinator" then some "coordinator"
  else if target = "flight" then some "flight"
  else if target = "hotel" then some "hotel"
  else if target = "activity" then some "activity"
  else if target = "transfer" then some "transfer"
  else if target = "reference" then some "reference"
  else none

/-- The `for line in response_text.splitlines()` loop of
`TravelAgentOrchestrator.parse_handoff`: each line is stripped; on the first
line whose upper-cased form starts with `HANDOFF:` the function returns
`mapping.get(target)` for the stripped, lower-cased text after the first
colon — whether or not the lookup succeeds.  Later lines are not examined. -/
def parseLines : List (List Char) → Option String
  | [] => none
  | l :: rest =>
    let line := pyStripL l
    if handoffMarkerChars.isPrefixOf (pyUpperL line) then
      roleMapping (String.mk (pyLowerL (pyStripL (splitColonLast line))))
    else parseLines rest

/-- `TravelAgentOrchestrator.parse_handoff` (coach solution, lines 316-332). -/
def parse_handoff (response_text : String) : Option String :=
  parseLines (pySplitlines response_text.data)

/-- The keys of the `self.agents` dictionary after `initialize_agents` has
registered every spec returned by `build_agent_specs` (coach solution,
lines 75-157 and 198-203): the six fixed roles, in spec order. -/
def agentKeys : List String :=
  ["coordinator", "reference", "flight", "hotel", "activity", "transfer"]

/-- One step of Python `str.title()` (ASCII): the flag records whether the
previous character was alphabetic; the first letter of each alphabetic run
is upper-cased and the rest lower-cased. -/
def pyTitleAux : Bool → List Char → List Char
  | _, [] => []
  | prevAlpha, c :: rest =>
    if c.isAlpha then
      (if prevAlpha then c.toLower else c.toUpper) :: pyTitleAux true rest
    else c :: pyTitleAux false rest

/-- Python `str.title()`. -/
def pyTitle (s : String) : String :=
  String.mk (pyTitleAux false s.data)

/-- One step of Python `str.split()` (no separator): whitespace runs are
separators and empty fields are dropped; the accumulator holds the current
word reversed. -/
def splitWsAux : List Char → List Char → List (List Char)
  | [], acc => if acc.isEmpty then [] else [acc.reverse]
  | c :: rest, acc =>
    if isPySpace c then
      if acc.isEmpty then splitWsAux rest [] else acc.reverse :: splitWsAux rest []
    else splitWsAux rest (c :: acc)

/-- Python `str.split()` with no arguments. -/
def pySplitWs (l : List Char) : List (List Char) :=
  splitWsAux l []

/-- Python `" ".join(words)` on character lists. -/
def joinWords : List (List Char) → List Char
  | [] => []
  | [w] => w
  | w :: ws => w ++ ' ' :: joinWords ws

/-- A turn of the shared log: the coach solution's `ConversationTurn`
dataclass (speaker, role, content). -/
structure ConversationTurn where
  speaker : String
  role : String
  content : String
deriving DecidableEq

/-- A turn of the student client's transcript: its `ConversationTurn`
dataclass has only speaker and content. -/
structure TranscriptTurn where
  speaker : String
  content : String
deriving DecidableEq

/-- `TravelAgentOrchestrator.record_turn` (coach solution, lines 296-303):
always appends the turn with stripped content — there is no emptiness
check — then keeps the newest 40 entries (`self.conversation[-40:]`). -/
def record_turn_coach (conversation : List ConversationTurn)
    (speaker role content : String) : List ConversationTurn :=
  let conv := conversation ++ [⟨speaker, role, pyStrip content⟩]
  if conv.length > 40 then conv.drop (conv.length - 40) else conv

/-- `TravelMultiAgentClient.record_turn` (student scaffold, lines 333-339):
returns unchanged when the stripped content is empty, otherwise appends and
keeps the newest `MAX_TRANSCRIPT_TURNS = 40` entries. -/
def record_turn_student (transcript : List TranscriptTurn)
    (speaker content : String) : List TranscriptTurn :=
  let c := pyStrip content
  if c = "" then transcript
  else
    let t := transcript ++ [⟨speaker, c⟩]
    if t.length > 40 then t.drop (t.length - 40) else t

/-- `self.agent_labels.get(key, key.title())` as used by the student
client; labels is the association list standing for the
`agent_labels` dictionary. -/
def lookupLabel (labels : List (String × String)) (key : String) : String :=
  match labels.lookup key with
  | some l => l
  | none => pyTitle key

/-- `TravelAgentOrchestrator.capture_trip_note` (coach solution, lines
305-314): coordinator text is ignored; otherwise internal whitespace is
collapsed, the snippet is truncated to 180 characters, prefixed with
`agent_key.title()`, appended, and the newest 12 notes are kept. -/
def capture_trip_note_coach (trip_notes : List String)
    (agent_key text : String) : List String :=
  if agent_key = "coordinator" then trip_notes
  else
    let snippet : List Char := (joinWords (pySplitWs (pyStrip text).data)).take 180
    if snippet.isEmpty then trip_notes
    else
      let notes := trip_notes ++ [pyTitle agent_key ++ ": " ++ String.mk snippet]
      if notes.length > 12 then notes.drop (notes.length - 12) else notes

/-- `TravelMultiAgentClient.capture_trip_note` (student scaffold, lines
341-350): coordinator text is ignored; otherwise internal whitespace is
collapsed, the label is looked up (default `agent_key.title()`), the
snippet alone is truncated to 200 characters before the label is prefixed,
and the newest `MAX_SUMMARY_NOTES = 12` notes are kept. -/
def capture_trip_note_student (labels : List (String × String))
    (trip_notes : List String) (agent_key text : String) : List String :=
  if agent_key = "coordinator" then trip_notes
  else
    let snippet : List Char := joinWords (pySplitWs (pyStrip text).data)
    if snippet.isEmpty then trip_notes
    else
      let notes := trip_notes ++
        [lookupLabel labels agent_key ++ ": " ++ String.mk (snippet.take 200)]
      if notes.length > 12 then notes.drop (notes.length - 12) else notes

/-- Python slicing `l[-limit:]`: the whole list when `limit = 0` (Python's
`[-0:]` is `[0:]`), otherwise the last `limit` elements. -/
def lastSlice {α : Type} (l : List α) (limit : Nat) : List α :=
  if limit = 0 then l else l.drop (l.length - limit)

/-- Python `sep.join(parts)`. -/
def joinSepStr (sep : String) (parts : List String) : String :=
  match parts with
  | [] => ""
  | p :: ps => ps.foldl (fun acc q => acc ++ sep ++ q) p

/-- `TravelAgentOrchestrator.render_context` (coach solution, lines
274-279): the last `limit` turns (default 6) as `"speaker: content"` lines
joined by newlines. -/
def render_context (conversation : List ConversationTurn) (limit : Nat) : String :=
  joinSepStr "\n"
    ((lastSlice conversation limit).map fun turn => turn.speaker ++ ": " ++ turn.content)

/-- The fixed middle section of every coach prompt (lines 288-292), the
instruction about emitting `HANDOFF:` markers. -/
def handoffReminder : String :=
  "Respond to the latest user request while staying consistent with the conversation. If you are handing control to another agent, output a line that starts with `HANDOFF:` before your final message."

/-- `TravelAgentOrchestrator.build_agent_prompt` (coach solution, lines
281-294): an optional context block, the handoff reminder, and the labelled
latest user message, joined with blank lines.  The `agent_key` argument is
accepted but unused, exactly as in the source. -/
def build_agent_prompt (conversation : List ConversationTurn)
    (agent_key user_input : String) : String :=
  let context := render_context conversation 6
  let parts :=
    (if context ≠ "" then ["Conversation so far:\n" ++ context] else []) ++
      [handoffReminder, "Latest user message:\n" ++ user_input]
  joinSepStr "\n\n" parts

/-- `TravelMultiAgentClient.render_context` (student scaffold, lines
352-354), identical shape over the two-field turns. -/
def render_context_student (transcript : List TranscriptTurn) (limit : Nat) : String :=
  joinSepStr "\n"
    ((lastSlice transcript limit).map fun turn => turn.speaker ++ ": " ++ turn.content)

/-- The handoff reminder the student scaffold directs non-coordinator
prompts to carry (lines 363-364 of the scaffold's TODO text). -/
def handoffReminderStudent : String :=
  "If you are done, place `HANDOFF:Coordinator` on its own line so the coordinator resumes the conversation."

/-- Modelled from the spec: `TravelMultiAgentClient.build_prompt` is left
as a TODO stub in the student scaffold (lines 356-368), so its body is
taken from the specification's Prompt Builder contract (spec sections 4.5
and 8) and the scaffold's own TODO steps: an optional context block, the
labelled latest input, and — for any role other than the coordinator — the
handoff reminder, joined with blank lines. -/
def build_prompt_student (transcript : List TranscriptTurn)
    (agent_key latest_input : String) : String :=
  let context := render_context_student transcript 6
  let parts :=
    (if context ≠ "" then ["Conversation so far:\n" ++ context] else []) ++
      ["Latest user request:\n" ++ latest_input] ++
      (if agent_key ≠ "coordinator" then [handoffReminderStudent] else [])
  joinSepStr "\n\n" parts

/-- `pat` occurs contiguously inside `s` (Python's `pat in s`). -/
def strContains (s pat : String) : Prop :=
  pat.data <:+: s.data

instance (s pat : String) : Decidable (strContains s pat) :=
  List.decidableInfix pat.data s.data

theorem strContains_of_data {s pat : String} (pre post : List Char)
    (h : s.data = pre ++ pat.data ++ post) : strContains s pat :=
  ⟨pre, post, h.symm⟩

theorem foldl_join_extends (sep : String) :
    ∀ (ps : List String) (acc : String),
      acc.data <:+: (ps.foldl (fun a q => a ++ sep ++ q) acc).data := by
  intro ps
  induction ps with
  | nil => intro acc; exact ⟨[], [], by simp⟩
  | cons q rest ih =>
    intro acc
    have step : acc.data <:+: (acc ++ sep ++ q).data :=
      ⟨[], sep.data ++ q.data, by simp [String.data_append]⟩
    simpa using step.trans (ih (acc ++ sep ++ q))

theorem foldl_join_mem (sep x : String) :
    ∀ (ps : List String) (acc : String), x ∈ ps →
      x.data <:+: (ps.foldl (fun a q => a ++ sep ++ q) acc).data := by
  intro ps
  induction ps with
  | nil => intro acc h; cases h
  | cons q rest ih =>
    intro acc h
    rcases List.mem_cons.mp h with h1 | h2
    · subst h1
      have step : x.data <:+: (acc ++ sep ++ x).data :=
        ⟨acc.data ++ sep.data, [], by simp [String.data_append]⟩
      simpa using step.trans (foldl_join_extends sep rest (acc ++ sep ++ x))
    · simpa using ih (acc ++ sep ++ q) h2

/-- Any part of a Python-style join occurs in the joined string. -/
theorem joinSepStr_contains (sep : String) (parts : List String) (x : String)
    (h : x ∈ parts) : strContains (joinSepStr sep parts) x := by
  cases parts with
  | nil => cases h
  | cons p ps =>
    rcases List.mem_cons.mp h with h1 | h2
    · subst h1
      exact foldl_join_extends sep ps x
    · exact foldl_join_mem sep x ps p h2

theorem strContains_append_right (a b : String) : strContains (a ++ b) b :=
  ⟨a.data, [], by simp [String.data_append]⟩

theorem strContains_trans {s mid pat : String} (h1 : strContains mid pat)
    (h2 : strContains s mid) : strContains s pat :=
  h1.trans h2

/-- What the external policy service does on one check, as observed by the
orchestrator: either some network/SDK call raises (the Python
`except Exception as exc` branch, with `exc` rendered to `msg`), or the
poll loop `while run.status in ("queued", "in_progress")` finishes with a
terminal `status` and the service holds `messages`.  The message payload
type is a parameter because the two variants list messages in different
shapes. -/
inductive PolicyOutcome (μ : Type) where
  | exn (msg : String)
  | run (status : String) (messages : μ)

/-- Coach message shape: messages newest first (`order="desc"`); each
message is its list of content items, an item being `some v` when
`item.text` is present with value `v` and `none` otherwise. -/
def CoachMessages : Type := List (List (Option String))

/-- `TravelAgentOrchestrator.check_travel_policy` (coach solution, lines
234-272): `None` when the project client or agent id is unconfigured;
otherwise the text of the first content item of the newest message when the
run completed and such an item exists, the fixed completed-fallback string
in every other run case, and `"Policy check unavailable: ..."` when an
exception was raised. -/
def check_travel_policy_coach (configured : Bool)
    (outcome : PolicyOutcome CoachMessages) : Option String :=
  if !configured then none
  else
    match outcome with
    | .exn msg => some ("Policy check unavailable: " ++ msg)
    | .run status messages =>
      if status = "completed" then
        match messages with
        | [] => some "Policy check completed (no additional details returned)."
        | latest :: _ =>
          match latest.findSome? id with
          | some v => some v
          | none => some "Policy check completed (no additional details returned)."
      else some "Policy check completed (no additional details returned)."

/-- Student message shape: `(role, content items)` pairs oldest first
(`order="asc"`); an item is `some v` when the entry's text block carries
the value `v`. -/
def StudentMessages : Type := List (String × List (Option String))

/-- `_extract_policy_reply` (student scaffold, lines 236-254): scan the
messages newest first, skip entries whose role is neither assistant nor
tool, and return the first truthy (non-empty) text value found. -/
def extract_policy_reply (data : StudentMessages) : Option String :=
  data.reverse.findSome? fun entry =>
    if entry.1 = "assistant" ∨ entry.1 = "tool" then
      entry.2.findSome? fun item =>
        match item with
        | some v => if v ≠ "" then some v else none
        | none => none
    else none

/-- `run_policy_check` (student scaffold, lines 194-233): the literal
not-configured string when endpoint or agent id is absent; otherwise a
failure string carrying the terminal status when the run did not complete,
the extracted reply when one exists, the empty-response fallback otherwise,
and `"Policy agent request failed: ..."` when an exception was raised
(`details` standing for `_format_policy_error(exc)`). -/
def run_policy_check_student (configured : Bool)
    (outcome : PolicyOutcome StudentMessages) : String :=
  if !configured then "Travel policy agent not configured."
  else
    match outcome with
    | .exn details => "Policy agent request failed: " ++ details
    | .run status data =>
      if status ≠ "completed" then "Policy agent run failed: " ++ status
      else
        match extract_policy_reply data with
        | some reply => if reply ≠ "" then reply else "Policy agent completed with an empty response."
        | none => "Policy agent completed with an empty response."

/-- The `policy` command branch of `run_handoff_workflow` (coach solution,
lines 381-389): with no trip notes it asks for details and never invokes
the check; otherwise it prints the check result, falling back to
`"Policy check unavailable."` when the result is `None` or empty
(`result or 'Policy check unavailable.'`). -/
def policy_command_output_coach (trip_notes : List String) (configured : Bool)
    (outcome : PolicyOutcome CoachMessages) : String :=
  if trip_notes.isEmpty then "Add some trip details before running a policy check."
  else
    match check_travel_policy_coach configured outcome with
    | some r => if r ≠ "" then r else "Policy check unavailable."
    | none => "Policy check unavailable."

/-- The mutable fields of `TravelAgentOrchestrator` touched by the
interactive loop (coach solution, `__init__` lines 162-174). -/
structure OrchState where
  current_agent_key : String
  pending_auto_agent : Option String
  pending_auto_prompt : Option String
  last_user_message : String
  conversation : List ConversationTurn
  trip_notes : List String
deriving DecidableEq

/-- The state as `__init__` leaves it (and as `initialize_agents` line 205
re-asserts for the current key). -/
def initState : OrchState :=
  { current_agent_key := "coordinator"
    pending_auto_agent := none
    pending_auto_prompt := none
    last_user_message := ""
    conversation := []
    trip_notes := [] }

/-- The generic continuation instruction used when both the carried-over
prompt and the last user message are absent (coach solution, lines 351 and
421). -/
def defaultContinue : String :=
  "Continue assisting based on the latest user request."

/-- Python `a or b or c` over strings: first non-empty (truthy) value. -/
def pyOr3 (a b c : String) : String :=
  if a ≠ "" then a else if b ≠ "" then b else c

/-- The dispatch part of one `run_handoff_workflow` iteration (coach
solution, lines 394-423), from the streamed `response_text` onward: record
the assistant turn under the active label, capture a trip note, parse the
response for a handoff, and — only when the target is a known agent
different from the active one — switch to it, additionally queueing an
auto-dispatch (carrying `response_text or last_user_message or` the generic
continuation) when the target is not the coordinator. -/
def dispatchStep (labels : List (String × String)) (s : OrchState)
    (response_text : String) : OrchState :=
  let conv := record_turn_coach s.conversation
    (lookupLabel labels s.current_agent_key) "assistant" response_text
  let notes := capture_trip_note_coach s.trip_notes s.current_agent_key response_text
  let s1 : OrchState := { s with conversation := conv, trip_notes := notes }
  match parse_handoff response_text with
  | none => s1
  | some t =>
    if t ∈ agentKeys then
      if t ≠ s.current_agent_key then
        if t = "coordinator" then { s1 with current_agent_key := t }
        else
          { s1 with
            current_agent_key := t
            pending_auto_agent := some t
            pending_auto_prompt :=
              some (pyOr3 response_text s.last_user_message defaultContinue) }
      else s1
    else s1

/-- The console branch of one loop iteration (coach solution, lines
360-392): strip the raw line; empty input and the `exit`/`quit`,
`summary` and `policy` commands end the iteration without dispatching
(returning `none`) and leave every orchestrator field unchanged; any other
input is stored as the last user message, recorded as a user turn, and
handed to dispatch. -/
def userInputPhase (s : OrchState) (raw_line : String) :
    Option (OrchState × String) :=
  let user_input := pyStrip raw_line
  if user_input = "" then none
  else
    let lowered := pyLower user_input
    if lowered = "exit" ∨ lowered = "quit" ∨ lowered = "summary" ∨ lowered = "policy" then
      none
    else
      some
        ({ s with
            last_user_message := user_input
            conversation := record_turn_coach s.conversation "User" "user" user_input },
          user_input)

/-- The head of one loop iteration (coach solution, lines 345-392): when a
pending auto-handoff names a known agent it is served — the active key
becomes the pending key, both pending fields are cleared, and the carried
prompt (`pending_auto_prompt or last_user_message or` the generic
continuation) is used as input; otherwise the console branch runs. -/
def inputPhase (s : OrchState) (raw_line : String) : Option (OrchState × String) :=
  match s.pending_auto_agent with
  | some k =>
    if k ∈ agentKeys then
      some
        ({ s with
            current_agent_key := k
            pending_auto_agent := none
            pending_auto_prompt := none },
          pyOr3 (s.pending_auto_prompt.getD "") s.last_user_message defaultContinue)
    else userInputPhase s raw_line
  | none => userInputPhase s raw_line

/-- One full iteration of the `while True` loop of `run_handoff_workflow`:
the input phase followed, when it produced a prompt, by the dispatch of the
agent response `response_text` produced by the streamed completion call. -/
def loopStep (labels : List (String × String)) (s : OrchState)
    (raw_line response_text : String) : OrchState :=
  match inputPhase s raw_line with
  | none => s
  | some (s1, _) => dispatchStep labels s1 response_text

/-- The active key and any pending auto-handoff key name known agents. -/
def OrchInv (s : OrchState) : Prop :=
  s.current_agent_key ∈ agentKeys ∧
    ∀ k, s.pending_auto_agent = some k → k ∈ agentKeys

/-! ## Helper lemmas -/

/-- An ordinary character extends the current line. -/
theorem splitlinesAux_other (c : Char) (rest acc : List Char)
    (hn : c ≠ '\n') (hr : c ≠ '\x0d') :
    splitlinesAux (c :: rest) acc = splitlinesAux rest (c :: acc) := by
  conv_lhs => rw [splitlinesAux.eq_def]
  simp [hn, hr]

/-- A newline closes the current line. -/
theorem splitlinesAux_nl (rest acc : List Char) :
    splitlinesAux ('\n' :: rest) acc = acc.reverse :: splitlinesAux rest [] := rfl

/-- Splitting a text that begins with a newline-free line: the line is
emitted whole and scanning continues after the newline. -/
theorem splitlinesAux_line_append (l : List Char)
    (h : ∀ c ∈ l, c ≠ '\n' ∧ c ≠ '\x0d') :
    ∀ (rest acc : List Char),
      splitlinesAux (l ++ '\n' :: rest) acc = (acc.reverse ++ l) :: splitlinesAux rest [] := by
  induction l with
  | nil => intro rest acc; simp [splitlinesAux_nl]
  | cons c l' ih =>
    intro rest acc
    obtain ⟨hn, hr⟩ := h c (by simp)
    have tail := ih (fun d hd => h d (by simp [hd])) rest (c :: acc)
    simp only [List.cons_append]
    rw [splitlinesAux_other c _ _ hn hr, tail]
    simp

/-- The handoff `mapping` only ever produces the six agent keys. -/
theorem roleMapping_range (t k : String) (h : roleMapping t = some k) :
    k ∈ agentKeys := by
  unfold roleMapping at h
  split_ifs at h <;>
    first
      | exact Option.noConfusion h
      | (injection h with h2; subst h2; decide)

/-- The line scan of `parse_handoff` only ever produces the six agent keys. -/
theorem parseLines_range :
    ∀ (lines : List (List Char)) (k : String), parseLines lines = some k → k ∈ agentKeys := by
  intro lines
  induction lines with
  | nil => intro k h; exact Option.noConfusion h
  | cons l rest ih =>
    intro k h
    simp only [parseLines] at h
    split at h
    · exact roleMapping_range _ _ h
    · exact ih _ h

/-- `parse_handoff` only ever produces the six agent keys. -/
theorem parse_handoff_range (text k : String) (h : parse_handoff text = some k) :
    k ∈ agentKeys :=
  parseLines_range _ _ h

/-- Whatever follows a first marker line with an unknown target is never
examined. -/
theorem parse_handoff_unknown_first (s : String) :
    parse_handoff ("HANDOFF:Unknown\n" ++ s) = none := by
  unfold parse_handoff pySplitlines
  have hdata : ("HANDOFF:Unknown\n" ++ s).data =
      "HANDOFF:Unknown".data ++ '\n' :: s.data := by
    rw [String.data_append]
    show "HANDOFF:Unknown".data ++ ['\n'] ++ s.data = _
    simp
  rw [hdata, splitlinesAux_line_append "HANDOFF:Unknown".data (by decide)]
  rfl

/-- Whatever follows a first marker line with a known target is never
examined either. -/
theorem parse_handoff_flight_first (s : String) :
    parse_handoff ("HANDOFF:Flight\n" ++ s) = some "flight" := by
  unfold parse_handoff pySplitlines
  have hdata : ("HANDOFF:Flight\n" ++ s).data =
      "HANDOFF:Flight".data ++ '\n' :: s.data := by
    rw [String.data_append]
    show "HANDOFF:Flight".data ++ ['\n'] ++ s.data = _
    simp
  rw [hdata, splitlinesAux_line_append "HANDOFF:Flight".data (by decide)]
  rfl

/-! ## Claim C1 — marker normalization -/

/-- C1 counterexample: `parse_handoff` does not strip decorative
punctuation/markdown around the target, so `"  HANDOFF:*Flight*"` does not
resolve to the flight role (the target `"*flight*"` misses the mapping). -/
theorem parse_handoff_star_counterexample :
    parse_handoff "  HANDOFF:*Flight*" ≠ some "flight" ∧
    parse_handoff "  HANDOFF:*Flight*" = none := by
  decide

/-- C1 (amended): `parse_handoff` normalizes surrounding whitespace and
case — `"HANDOFF:Flight"` and `"handoff: flight"` resolve to the flight
role and `"HANDOFF:Unknown"` resolves to none — but it does not strip
decorative punctuation or markdown, so `"  HANDOFF:*Flight*"` also
resolves to none. -/
theorem parse_handoff_normalization_amended :
    parse_handoff "HANDOFF:Flight" = some "flight" ∧
    parse_handoff "handoff: flight" = some "flight" ∧
    parse_handoff "HANDOFF:Unknown" = none ∧
    parse_handoff "  HANDOFF:*Flight*" = none := by
  decide

/-! ## Claim C2 — first marker line wins -/

/-- C2 counterexample: a first marker line with an unknown target is not
skipped; `parse_handoff "HANDOFF:Unknown\nHANDOFF:Flight"` returns none
even though a later line names a known role. -/
theorem parse_handoff_skip_counterexample :
    parse_handoff "HANDOFF:Unknown\nHANDOFF:Flight" ≠ some "flight" ∧
    parse_handoff "HANDOFF:Unknown\nHANDOFF:Flight" = none := by
  decide

/-- C2 (amended): `parse_handoff` commits to the first line that carries
the marker prefix: if that line's target is unknown it returns none no
matter what follows, and if that line's target is known it returns that
role no matter what follows.  Later lines are never consulted. -/
theorem parse_handoff_first_marker_amended :
    (∀ s : String, parse_handoff ("HANDOFF:Unknown\n" ++ s) = none) ∧
    (∀ s : String, parse_handoff ("HANDOFF:Flight\n" ++ s) = some "flight") :=
  ⟨parse_handoff_unknown_first, parse_handoff_flight_first⟩

/-! ## Claim C3 — role after an unmarked response -/

/-- C3 counterexample: with the flight specialist active, a response with
no handoff marker leaves the active role on the specialist (and queues
nothing); the role does not revert to the coordinator. -/
theorem no_marker_keeps_specialist_counterexample :
    parse_handoff "Here are some flight options." = none ∧
    (dispatchStep [] { initState with current_agent_key := "flight" }
        "Here are some flight options.").current_agent_key = "flight" ∧
    (dispatchStep [] { initState with current_agent_key := "flight" }
        "Here are some flight options.").pending_auto_agent = none ∧
    ("flight" : String) ≠ "coordinator" := by
  decide

/-- C3 (amended): when `parse_handoff` finds no marker, the dispatch step
leaves the active role and both pending auto-handoff fields exactly as
they were — so a specialist stays active across an unmarked response
instead of reverting to the coordinator. -/
theorem dispatch_no_marker_role_unchanged (labels : List (String × String))
    (s : OrchState) (resp : String) (h : parse_handoff resp = none) :
    (dispatchStep labels s resp).current_agent_key = s.current_agent_key ∧
    (dispatchStep labels s resp).pending_auto_agent = s.pending_auto_agent ∧
    (dispatchStep labels s resp).pending_auto_prompt = s.pending_auto_prompt := by
  simp only [dispatchStep, h]
  exact ⟨trivial, trivial, trivial⟩

/-- Witness for C3 (amended) at a concrete specialist state and response. -/
theorem dispatch_no_marker_role_unchanged_witness :
    (dispatchStep [] { initState with current_agent_key := "hotel" }
        "Rooms are available downtown.").current_agent_key =
      ({ initState with current_agent_key := "hotel" } : OrchState).current_agent_key :=
  (dispatch_no_marker_role_unchanged [] { initState with current_agent_key := "hotel" }
    "Rooms are available downtown." (by decide)).1

/-! ## Claim C10 — self-handoff is a no-op -/

/-- C10: when the parsed target equals the active role (the coordinator
handing off to itself included), the dispatch step changes neither the
active role, nor the pending auto-handoff fields, nor the last user
message: no auto-dispatch is queued and no handoff occurs. -/
theorem self_handoff_noop (labels : List (String × String)) (s : OrchState)
    (resp : String) (h : parse_handoff resp = some s.current_agent_key) :
    (dispatchStep labels s resp).current_agent_key = s.current_agent_key ∧
    (dispatchStep labels s resp).pending_auto_agent = s.pending_auto_agent ∧
    (dispatchStep labels s resp).pending_auto_prompt = s.pending_auto_prompt ∧
    (dispatchStep labels s resp).last_user_message = s.last_user_message := by
  simp only [dispatchStep, h]
  split_ifs with ht hne hc
  · exact absurd rfl hne
  · exact absurd rfl hne
  · exact ⟨rfl, rfl, rfl, rfl⟩
  · exact ⟨rfl, rfl, rfl, rfl⟩

/-- Witness for C10: the coordinator handing off to itself. -/
theorem self_handoff_noop_witness :
    (dispatchStep [] initState "HANDOFF:Coordinator").current_agent_key =
      initState.current_agent_key :=
  (self_handoff_noop [] initState "HANDOFF:Coordinator" (by decide)).1

/-! ## Claim C9 — keys always name known agents -/

/-- The console branch never touches the active or pending keys. -/
theorem userInputPhase_inv (s : OrchState) (raw : String) (h : OrchInv s)
    (s1 : OrchState) (inp : String)
    (he : userInputPhase s raw = some (s1, inp)) : OrchInv s1 := by
  simp only [userInputPhase] at he
  split_ifs at he with h1 h2
  simp only [Option.some.injEq, Prod.mk.injEq] at he
  obtain ⟨rfl, rfl⟩ := he
  exact h

/-- Serving or skipping a pending auto-handoff preserves the invariant. -/
theorem inputPhase_inv (s : OrchState) (raw : String) (h : OrchInv s)
    (s1 : OrchState) (inp : String)
    (he : inputPhase s raw = some (s1, inp)) : OrchInv s1 := by
  obtain ⟨h1, h2⟩ := h
  cases hp : s.pending_auto_agent with
  | none =>
    simp only [inputPhase, hp] at he
    exact userInputPhase_inv s raw ⟨h1, h2⟩ s1 inp he
  | some k =>
    simp only [inputPhase, hp] at he
    split_ifs at he with hk
    · simp only [Option.some.injEq, Prod.mk.injEq] at he
      obtain ⟨rfl, rfl⟩ := he
      exact ⟨hk, fun k' hk' => Option.noConfusion hk'⟩
    · exact userInputPhase_inv s raw ⟨h1, h2⟩ s1 inp he

/-- The dispatch step preserves the invariant: the active key changes only
to a member of the agents map, and a pending key is only ever queued under
the same membership guard. -/
theorem dispatchStep_inv (labels : List (String × String)) (s : OrchState)
    (resp : String) (h : OrchInv s) : OrchInv (dispatchStep labels s resp) := by
  obtain ⟨h1, h2⟩ := h
  cases hp : parse_handoff resp with
  | none =>
    simp only [dispatchStep, hp]
    exact ⟨h1, h2⟩
  | some t =>
    simp only [dispatchStep, hp]
    split_ifs with ht hne hc
    · exact ⟨ht, h2⟩
    · exact ⟨ht, fun k hk => by injection hk with e; exact e ▸ ht⟩
    · exact ⟨h1, h2⟩
    · exact ⟨h1, h2⟩

/-- A full loop iteration preserves the invariant. -/
theorem loopStep_inv (labels : List (String × String)) (s : OrchState)
    (raw resp : String) (h : OrchInv s) : OrchInv (loopStep labels s raw resp) := by
  unfold loopStep
  cases hi : inputPhase s raw with
  | none => exact h
  | some p =>
    cases p with
    | mk s1 inp =>
      exact dispatchStep_inv labels s1 resp (inputPhase_inv s raw h s1 inp hi)

/-- C9: `parse_handoff` returns none or one of exactly the six fixed role
keys, the initial orchestrator state satisfies the key invariant, and
every loop iteration preserves it: the active role key and any pending
auto-handoff key always name agents present in the agents map. -/
theorem handoff_targets_and_keys_invariant :
    (∀ text k, parse_handoff text = some k → k ∈ agentKeys) ∧
    OrchInv initState ∧
    (∀ (labels : List (String × String)) (s : OrchState) (raw resp : String),
      OrchInv s → OrchInv (loopStep labels s raw resp)) :=
  ⟨parse_handoff_range, ⟨by decide, fun k hk => Option.noConfusion hk⟩, loopStep_inv⟩

/-- Witness for C9 at a concrete run of one loop iteration. -/
theorem handoff_targets_and_keys_invariant_witness :
    OrchInv (loopStep [] initState "plan a trip to London" "HANDOFF:Hotel") :=
  handoff_targets_and_keys_invariant.2.2 [] initState "plan a trip to London"
    "HANDOFF:Hotel" handoff_targets_and_keys_invariant.2.1

/-! ## Claim C4 — transcript bounds -/

/-- One coach append keeps the transcript within 40 entries, whatever its
previous length. -/
theorem record_turn_coach_length (tr : List ConversationTurn) (a b c : String) :
    (record_turn_coach tr a b c).length ≤ 40 := by
  unfold record_turn_coach
  by_cases h : (tr ++ [(⟨a, b, pyStrip c⟩ : ConversationTurn)]).length > 40
  · rw [if_pos h, List.length_drop]
    omega
  · rw [if_neg h]
    omega

/-- One student append keeps a transcript that was within 40 entries within
40 entries. -/
theorem record_turn_student_length (tr : List TranscriptTurn) (a c : String)
    (h : tr.length ≤ 40) : (record_turn_student tr a c).length ≤ 40 := by
  unfold record_turn_student
  by_cases he : pyStrip c = ""
  · rw [if_pos he]; exact h
  · rw [if_neg he]
    by_cases hl : (tr ++ [(⟨a, pyStrip c⟩ : TranscriptTurn)]).length > 40
    · rw [if_pos hl, List.length_drop]
      omega
    · rw [if_neg hl]
      omega

/-- Folding coach appends from the empty log stays within 40 entries. -/
theorem record_turn_coach_fold_length (calls : List (String × String × String)) :
    ∀ tr : List ConversationTurn, tr.length ≤ 40 →
      (calls.foldl (fun t c => record_turn_coach t c.1 c.2.1 c.2.2) tr).length ≤ 40 := by
  induction calls with
  | nil => intro tr h; simpa using h
  | cons c cs ih =>
    intro tr h
    exact ih _ (record_turn_coach_length tr c.1 c.2.1 c.2.2)

/-- Folding student appends from the empty transcript stays within 40
entries. -/
theorem record_turn_student_fold_length (calls : List (String × String)) :
    ∀ tr : List TranscriptTurn, tr.length ≤ 40 →
      (calls.foldl (fun t c => record_turn_student t c.1 c.2) tr).length ≤ 40 := by
  induction calls with
  | nil => intro tr h; simpa using h
  | cons c cs ih =>
    intro tr h
    exact ih _ (record_turn_student_length tr c.1 c.2 h)

/-- C4 counterexample: the coach variant has no emptiness guard — a call
whose content is whitespace records a turn with empty content instead of
leaving the transcript unchanged. -/
theorem record_turn_coach_empty_counterexample :
    record_turn_coach [] "User" "user" "   " ≠ [] ∧
    record_turn_coach [] "User" "user" "   " = [⟨"User", "user", ""⟩] := by
  decide

/-- C4 (amended): for every sequence of calls both variants keep the
transcript within 40 entries, and on overflow the coach variant drops the
oldest turn; the student variant ignores content that is empty after
trimming, but the coach variant records such a turn (with stripped,
possibly empty, content). -/
theorem record_turn_bounds_amended :
    (∀ calls : List (String × String × String),
      (calls.foldl (fun t c => record_turn_coach t c.1 c.2.1 c.2.2) []).length ≤ 40) ∧
    (∀ calls : List (String × String),
      (calls.foldl (fun t c => record_turn_student t c.1 c.2) []).length ≤ 40) ∧
    (∀ (tr : List ConversationTurn) (a b c : String), tr.length = 40 →
      record_turn_coach tr a b c = tr.drop 1 ++ [⟨a, b, pyStrip c⟩]) ∧
    (∀ (tr : List TranscriptTurn) (sp c : String), pyStrip c = "" →
      record_turn_student tr sp c = tr) ∧
    record_turn_coach [] "User" "user" " " = [⟨"User", "user", ""⟩] := by
  refine ⟨fun calls => record_turn_coach_fold_length calls [] (by simp),
    fun calls => record_turn_student_fold_length calls [] (by simp), ?_, ?_, by decide⟩
  · intro tr a b c h
    unfold record_turn_coach
    rw [if_pos (by simp [h]), List.drop_append_of_le_length (by simp [h])]
    simp [h]
  · intro tr sp c h
    unfold record_turn_student
    rw [if_pos h]

/-- Witness for C4 (amended): a whitespace call leaves the student
transcript unchanged. -/
theorem record_turn_bounds_amended_witness :
    record_turn_student [⟨"User", "hi"⟩] "Coordinator" "  " = [⟨"User", "hi"⟩] :=
  record_turn_bounds_amended.2.2.2.1 [⟨"User", "hi"⟩] "Coordinator" "  " (by decide)

/-! ## Claim C5 — trip-note bounds -/

/-- Python `title()` never changes the length. -/
theorem pyTitleAux_length : ∀ (l : List Char) (b : Bool),
    (pyTitleAux b l).length = l.length := by
  intro l
  induction l with
  | nil => intro b; rfl
  | cons c rest ih =>
    intro b
    unfold pyTitleAux
    split_ifs <;> simp [ih]

/-- `pyTitle` preserves string length. -/
theorem pyTitle_length (s : String) : (pyTitle s).length = s.length := by
  rw [pyTitle, String.length_mk, pyTitleAux_length]
  rfl

/-- Every key of the agents map names at most 11 characters. -/
theorem agentKey_length_le (key : String) (hk : key ∈ agentKeys) :
    key.length ≤ 11 := by
  simp [agentKeys] at hk
  rcases hk with rfl | rfl | rfl | rfl | rfl | rfl <;> decide

/-- A coach note built from a known key and a snippet of at most 180
characters stays within 200 characters. -/
theorem coach_note_le (key : String) (hk : key ∈ agentKeys) (snippet : List Char)
    (hs : snippet.length ≤ 180) :
    (pyTitle key ++ ": " ++ String.mk snippet).length ≤ 200 := by
  have h1 := pyTitle_length key
  have h2 := agentKey_length_le key hk
  have h3 : (": " : String).length = 2 := rfl
  have h4 : (String.mk snippet).length = snippet.length := rfl
  have hlen : (pyTitle key ++ ": " ++ String.mk snippet).length =
      (pyTitle key).length + (": " : String).length + (String.mk snippet).length := by
    rw [String.length_append, String.length_append]
  omega

/-- The bounded-notes invariant of the coach variant: at most 12 notes,
each within 200 characters. -/
def NotesInv (notes : List String) : Prop :=
  notes.length ≤ 12 ∧ ∀ n ∈ notes, n.length ≤ 200

/-- One coach capture with a known key preserves the bounded-notes
invariant. -/
theorem capture_coach_step (notes : List String) (key text : String)
    (hk : key ∈ agentKeys) (h : NotesInv notes) :
    NotesInv (capture_trip_note_coach notes key text) := by
  obtain ⟨hlen, hmem⟩ := h
  have hsnip : ((joinWords (pySplitWs (pyStrip text).data)).take 180).length ≤ 180 := by
    simp [List.length_take]
  simp only [capture_trip_note_coach]
  split_ifs with hco hsn hl
  · exact ⟨hlen, hmem⟩
  · exact ⟨hlen, hmem⟩
  · constructor
    · rw [List.length_drop]; omega
    · intro n hn
      have hn2 := List.mem_of_mem_drop hn
      rcases List.mem_append.mp hn2 with hold | hnew
      · exact hmem n hold
      · rw [List.mem_singleton.mp hnew]
        exact coach_note_le key hk _ hsnip
  · constructor
    · simp only [List.length_append, List.length_singleton] at hl ⊢; omega
    · intro n hn
      rcases List.mem_append.mp hn with hold | hnew
      · exact hmem n hold
      · rw [List.mem_singleton.mp hnew]
        exact coach_note_le key hk _ hsnip

/-- Folding coach captures with known keys preserves the invariant. -/
theorem capture_coach_fold (calls : List (String × String)) :
    ∀ notes : List String, (∀ c ∈ calls, c.1 ∈ agentKeys) → NotesInv notes →
      NotesInv (calls.foldl (fun ns c => capture_trip_note_coach ns c.1 c.2) notes) := by
  induction calls with
  | nil => intro notes _ h; simpa using h
  | cons c cs ih =>
    intro notes hall h
    exact ih _ (fun d hd => hall d (by simp [hd]))
      (capture_coach_step notes c.1 c.2 (hall c (by simp)) h)

/-- One student capture keeps a note list that was within 12 entries
within 12 entries. -/
theorem capture_student_step_length (labels : List (String × String))
    (notes : List String) (key text : String) (h : notes.length ≤ 12) :
    (capture_trip_note_student labels notes key text).length ≤ 12 := by
  simp only [capture_trip_note_student]
  split_ifs with hco hsn hl
  · exact h
  · exact h
  · rw [List.length_drop]; omega
  · simp only [List.length_append, List.length_singleton] at hl ⊢; omega

/-- Folding student captures from the empty list stays within 12 notes. -/
theorem capture_student_fold_length (labels : List (String × String))
    (calls : List (String × String)) :
    ∀ notes : List String, notes.length ≤ 12 →
      (calls.foldl (fun ns c => capture_trip_note_student labels ns c.1 c.2) notes).length ≤ 12 := by
  induction calls with
  | nil => intro notes h; simpa using h
  | cons c cs ih =>
    intro notes h
    exact ih _ (capture_student_step_length labels notes c.1 c.2 h)

/-- C5 counterexample: the student variant truncates only the snippet to
200 characters before prefixing the label, so a stored note exceeds 200
characters (208 here: `"Flight: "` plus a 200-character snippet). -/
theorem trip_note_length_counterexample :
    ∃ note ∈ capture_trip_note_student [] [] "flight"
        (String.mk (List.replicate 200 'a')), 200 < note.length := by
  decide

/-- C5 (amended): both variants keep at most 12 notes for every call
sequence and ignore coordinator text; every coach note is prefixed with
`agent_key.title()` (not the display label) and, for the program's agent
keys, stays within 200 characters because the snippet is cut at 180 —
whereas the student variant cuts the snippet alone at 200 before
prefixing, so its notes may exceed 200 characters. -/
theorem capture_trip_note_bounds_amended :
    (∀ calls : List (String × String), (∀ c ∈ calls, c.1 ∈ agentKeys) →
      (calls.foldl (fun ns c => capture_trip_note_coach ns c.1 c.2) []).length ≤ 12 ∧
      ∀ note ∈ calls.foldl (fun ns c => capture_trip_note_coach ns c.1 c.2) [],
        note.length ≤ 200) ∧
    (∀ (labels : List (String × String)) (calls : List (String × String)),
      (calls.foldl (fun ns c => capture_trip_note_student labels ns c.1 c.2) []).length ≤ 12) ∧
    (∀ (notes : List String) (text : String),
      capture_trip_note_coach notes "coordinator" text = notes) ∧
    (∀ (labels : List (String × String)) (notes : List String) (text : String),
      capture_trip_note_student labels notes "coordinator" text = notes) ∧
    (∀ (notes : List String) (key text note : String),
      note ∈ capture_trip_note_coach notes key text →
      note ∈ notes ∨ ∃ rest : String, note = pyTitle key ++ ": " ++ rest) := by
  refine ⟨fun calls hall => capture_coach_fold calls [] hall ⟨by simp, by simp⟩,
    fun labels calls => capture_student_fold_length labels calls [] (by simp),
    fun notes text => by simp [capture_trip_note_coach],
    fun labels notes text => by simp [capture_trip_note_student], ?_⟩
  intro notes key text note hn
  simp only [capture_trip_note_coach] at hn
  split_ifs at hn with hco hsn hl
  · exact Or.inl hn
  · exact Or.inl hn
  · rcases List.mem_append.mp (List.mem_of_mem_drop hn) with hold | hnew
    · exact Or.inl hold
    · exact Or.inr ⟨_, List.mem_singleton.mp hnew⟩
  · rcases List.mem_append.mp hn with hold | hnew
    · exact Or.inl hold
    · exact Or.inr ⟨_, List.mem_singleton.mp hnew⟩

/-- Witness for C5 (amended) at a concrete capture sequence. -/
theorem capture_trip_note_bounds_amended_witness :
    ([(("flight" : String), ("Found a great fare" : String))].foldl
      (fun ns c => capture_trip_note_coach ns c.1 c.2) []).length ≤ 12 :=
  (capture_trip_note_bounds_amended.1
    [(("flight" : String), ("Found a great fare" : String))] (by decide)).1

/-! ## Claim C6 — policy check failure strings -/

/-- C6 counterexample: when the coach variant's polled run ends in the
non-success terminal state `"failed"`, the returned string is the generic
completed-fallback message, which does not contain the status. -/
theorem policy_check_status_counterexample :
    check_travel_policy_coach true (.run "failed" []) =
      some "Policy check completed (no additional details returned)." ∧
    ¬ strContains "Policy check completed (no additional details returned)." "failed" := by
  exact ⟨by decide, by decide⟩

/-- C6 (amended): exceptions are converted into descriptive strings in
both variants and the student variant returns a failure string containing
the non-success terminal status; the coach variant instead returns its
generic completed-fallback string (with no status) on non-success terminal
states, and returns no string at all (`None`) when unconfigured. -/
theorem policy_check_strings_amended :
    (∀ (status : String) (msgs : StudentMessages), status ≠ "completed" →
      run_policy_check_student true (.run status msgs) =
        "Policy agent run failed: " ++ status ∧
      strContains ("Policy agent run failed: " ++ status) status) ∧
    (∀ details : String, run_policy_check_student true (.exn details) =
      "Policy agent request failed: " ++ details) ∧
    (∀ msg : String, check_travel_policy_coach true (.exn msg) =
      some ("Policy check unavailable: " ++ msg)) ∧
    (∀ (status : String) (msgs : CoachMessages), status ≠ "completed" →
      check_travel_policy_coach true (.run status msgs) =
        some "Policy check completed (no additional details returned).") := by
  refine ⟨?_, fun details => rfl, fun msg => rfl, ?_⟩
  · intro status msgs h
    refine ⟨?_, strContains_append_right _ _⟩
    simp only [run_policy_check_student]
    rw [if_neg (by simp), if_pos h]
  · intro status msgs h
    simp only [check_travel_policy_coach]
    rw [if_neg (by simp), if_neg h]

/-- Witness for C6 (amended) at the concrete status `"failed"`. -/
theorem policy_check_strings_amended_witness :
    run_policy_check_student true (.run "failed" []) =
      "Policy agent run failed: " ++ "failed" ∧
    strContains ("Policy agent run failed: " ++ "failed") "failed" :=
  policy_check_strings_amended.1 "failed" [] (by decide)

/-! ## Claim C7 — unconfigured policy service -/

/-- C7 counterexample: with the service unconfigured the coach check
returns `None` rather than a "not configured" string, and the coach
`policy` command (with notes present) prints `"Policy check unavailable."`,
which does not mention configuration at all. -/
theorem policy_not_configured_counterexample :
    check_travel_policy_coach false (.run "completed" [[some "All compliant."]]) = none ∧
    policy_command_output_coach ["Flight: SEA to LHR 820 USD"] false
        (.run "completed" [[some "All compliant."]]) = "Policy check unavailable." ∧
    ¬ strContains "Policy check unavailable." "configured" := by
  exact ⟨by decide, by decide, by decide⟩

/-- C7 (amended): when unconfigured, both variants return without
consulting the service — the result is the same for every outcome the
service could have produced.  The student check returns the literal
not-configured string; the coach check returns `None`, and its `policy`
command therefore prints `"Policy check unavailable."` when notes exist
(and asks for trip details first when none do). -/
theorem policy_not_configured_amended :
    (∀ o : PolicyOutcome CoachMessages, check_travel_policy_coach false o = none) ∧
    (∀ o : PolicyOutcome StudentMessages,
      run_policy_check_student false o = "Travel policy agent not configured.") ∧
    strContains "Travel policy agent not configured." "not configured" ∧
    (∀ (o : PolicyOutcome CoachMessages) (notes : List String), notes ≠ [] →
      policy_command_output_coach notes false o = "Policy check unavailable.") ∧
    (∀ o : PolicyOutcome CoachMessages,
      policy_command_output_coach [] false o =
        "Add some trip details before running a policy check.") := by
  refine ⟨fun o => rfl, fun o => rfl, by decide, ?_, fun o => rfl⟩
  intro o notes h
  simp only [policy_command_output_coach]
  rw [if_neg (by simpa using h)]
  rfl

/-- Witness for C7 (amended): the unconfigured `policy` command with one
note recorded. -/
theorem policy_not_configured_amended_witness :
    policy_command_output_coach ["Hotel: two nights downtown"] false
        (.run "completed" []) = "Policy check unavailable." :=
  policy_not_configured_amended.2.2.2.1 (.run "completed" [])
    ["Hotel: two nights downtown"] (by decide)

/-! ## Claim C8 — prompts carry the input and the reminder -/

/-- C8: every prompt the coach builder produces contains the latest input
verbatim and carries the handoff-reminder text (for every role, hence in
particular for specialists); the modelled student builder likewise embeds
the input verbatim and, for any non-coordinator role, carries its
handoff reminder. -/
theorem prompt_contains_input_and_reminder (conversation : List ConversationTurn)
    (transcript : List TranscriptTurn) (agent_key user_input : String) :
    strContains (build_agent_prompt conversation agent_key user_input) user_input ∧
    strContains (build_agent_prompt conversation agent_key user_input) handoffReminder ∧
    strContains (build_prompt_student transcript agent_key user_input) user_input ∧
    (agent_key ≠ "coordinator" →
      strContains (build_prompt_student transcript agent_key user_input)
        handoffReminderStudent) := by
  refine ⟨?_, ?_, ?_, ?_⟩
  · simp only [build_agent_prompt]
    refine strContains_trans (strContains_append_right "Latest user message:\n" user_input) ?_
    exact joinSepStr_contains _ _ _ (by simp)
  · simp only [build_agent_prompt]
    exact joinSepStr_contains _ _ _ (by simp)
  · simp only [build_prompt_student]
    refine strContains_trans (strContains_append_right "Latest user request:\n" user_input) ?_
    exact joinSepStr_contains _ _ _ (by simp)
  · intro h
    simp only [build_prompt_student]
    exact joinSepStr_contains _ _ _ (by simp [h])

/-- Witness for C8 at a concrete specialist prompt. -/
theorem prompt_contains_input_and_reminder_witness :
    strContains (build_prompt_student [] "flight" "fly SEA to LHR")
      handoffReminderStudent :=
  (prompt_contains_input_and_reminder [] [] "flight" "fly SEA to LHR").2.2.2 (by decide)
